import Mathlib

/-!
Verification development for the finance-tracker backend (`src/app.py`).

The Flask handlers are shallowly embedded as pure Lean functions:

* Python `float` amounts are modelled as exact rationals (`ℚ`); the handlers
  only add, subtract, divide and compare them, and every claim is about the
  real-valued arithmetic these operations denote.
* `round(x, 2)` is modelled by `round2`, exact banker's rounding (round half
  to even) of the rational value to 2 decimal places.
* Firestore is modelled as an association list of (document id, record),
  scoped to one user's subcollection; `add` appends a record under a fresh
  id that the embedding receives as an explicit `newId` argument, and the
  `where`-filters of the queries become `List.filter`.  The `order_by`
  clauses of the listing endpoints are not modelled: no claim concerns
  result ordering.
* The external Firebase verifier (`auth.verify_id_token`) is a parameter
  `verify : String → Option Claims`; `none` models any verification failure
  (the `except` branch of `verify_firebase_token`).
* JSON request bodies are modelled by structures of `Option`-fields.  The
  `amount` field is classified by the outcome of Python's `float(...)`:
  `AmountField.num q` means the conversion succeeds with value `q`,
  `AmountField.nonNumeric t` means it raises (with `t` recording the Python
  truthiness of the original value, which `set_budget`'s required-field
  loop consults).  String fields carry the raw string; `.strip()` is
  `pyStrip` and `.split('-')` is `pySplitDash`, both implemented with
  Python's semantics on the character list.
* `datetime` values are the `DateTime` structure below; only field-wise
  comparison of in-range values is needed, done via the monotone key
  `dtKey`.  `created_at` / `updated_at` timestamps are not modelled
  (external wall clock, no claim concerns them).
* Handler results are `Resp α`: either `Resp.err status message` (the
  `jsonify({'error': ...}), status` returns) or `Resp.ok` with the payload.
  Functions that can write return the (possibly unchanged) store as well.
-/

attribute [local semireducible] Rat.add Rat.mul Rat.inv Rat.sub

/-- Python `round(x, 2)` on the exact rational value: banker's rounding
(round half to even) of `x * 100` to an integer, divided by `100`. -/
def round2 (q : ℚ) : ℚ :=
  let x := q * 100
  let n : ℤ := ⌊x⌋
  let r : ℤ :=
    if x - n < 1/2 then n
    else if (1:ℚ)/2 < x - n then n + 1
    else if n % 2 = 0 then n else n + 1
  (r : ℚ) / 100

/-- Characters removed by Python `str.strip()` (ASCII whitespace suffices for
the strings handled here). -/
def pyIsSpace (c : Char) : Bool :=
  c = ' ' || c = '\t' || c = '\n' || c = '\r'

/-- Python `str.strip()` on the character list. -/
def pyStripList (l : List Char) : List Char :=
  ((l.dropWhile pyIsSpace).reverse.dropWhile pyIsSpace).reverse

/-- Python `str.strip()`. -/
def pyStrip (s : String) : String :=
  ⟨pyStripList s.toList⟩

/-- Python `str.split('-')` on the character list: split at every dash, empty
parts kept, `[]` splits to `[[]]`. -/
def splitDashAux : List Char → List (List Char)
  | [] => [[]]
  | c :: rest =>
    let r := splitDashAux rest
    if c = '-' then [] :: r
    else
      match r with
      | h :: t => (c :: h) :: t
      | [] => [[c]]

/-- Python `str.split('-')`. -/
def pySplitDash (s : String) : List String :=
  (splitDashAux s.toList).map fun l => ⟨l⟩

/-- Numeric value of a digit list (most significant first). -/
def digitsVal (l : List Char) : ℕ :=
  l.foldl (fun a c => a * 10 + (c.toNat - 48)) 0

/-- Python `int(s)` for the strings reaching `get_month_range`: an optional
sign followed by one or more digits (underscore/whitespace liberality of
CPython's parser is not modelled; no claim depends on it). -/
def pyInt? (s : String) : Option ℤ :=
  match s.toList with
  | [] => none
  | '-' :: rest =>
    if rest ≠ [] ∧ rest.all Char.isDigit then some (-(digitsVal rest : ℤ)) else none
  | '+' :: rest =>
    if rest ≠ [] ∧ rest.all Char.isDigit then some ((digitsVal rest : ℤ)) else none
  | l =>
    if l.all Char.isDigit then some ((digitsVal l : ℤ)) else none

/-- Digit-only field of a `strptime` pattern: one to `maxDigits` digits. -/
def pyNatField? (s : String) (maxDigits : ℕ) : Option ℕ :=
  let l := s.toList
  if l ≠ [] ∧ l.length ≤ maxDigits ∧ l.all Char.isDigit then some (digitsVal l) else none

/-- Python `datetime` value (only the fields the handlers use). -/
structure DateTime where
  year : ℤ
  month : ℕ
  day : ℕ
  hour : ℕ
  minute : ℕ
  second : ℕ
deriving DecidableEq

/-- Proleptic-Gregorian leap year, as `calendar.isleap` / `datetime` use. -/
def isLeap (y : ℤ) : Bool :=
  y % 4 = 0 && (decide (¬ y % 100 = 0) || y % 400 = 0)

/-- Number of days of month `m` of year `y`, as `calendar.monthrange(y, m)[1]`
returns for `1 ≤ m ≤ 12`. -/
def daysInMonth (y : ℤ) (m : ℕ) : ℕ :=
  if m = 2 then (if isLeap y then 29 else 28)
  else if m = 4 ∨ m = 6 ∨ m = 9 ∨ m = 11 then 30
  else 31

/-- The `get_month_range` helper of `src/app.py`: parse `"YYYY-MM"` via
`split('-')` and `int`, and return the inclusive range from the first day at
00:00:00 to the last day at 23:59:59; any `ValueError` (wrong number of
components, non-numeric component, or a year/month the `datetime`
constructor rejects) yields `none` (the code's `(None, None)`). -/
def get_month_range (month_str : String) : Option (DateTime × DateTime) :=
  match pySplitDash month_str with
  | [ys, ms] =>
    match pyInt? ys, pyInt? ms with
    | some y, some m =>
      if 1 ≤ y ∧ y ≤ 9999 ∧ 1 ≤ m ∧ m ≤ 12 then
        some (⟨y, m.toNat, 1, 0, 0, 0⟩, ⟨y, m.toNat, daysInMonth y m.toNat, 23, 59, 59⟩)
      else none
    | _, _ => none
  | _ => none

/-- The `parse_date` helper of `src/app.py`: `datetime.strptime(s, '%Y-%m-%d')`,
`none` on failure.  `%Y` matches 1-4 digits, `%m` and `%d` 1-2 digits, and the
resulting (year, month, day) must be constructible. -/
def parse_date (date_string : String) : Option DateTime :=
  match pySplitDash date_string with
  | [ys, ms, ds] =>
    match pyNatField? ys 4, pyNatField? ms 2, pyNatField? ds 2 with
    | some y, some m, some d =>
      if 1 ≤ y ∧ 1 ≤ m ∧ m ≤ 12 ∧ 1 ≤ d ∧ d ≤ daysInMonth (y : ℤ) m then
        some ⟨(y : ℤ), m, d, 0, 0, 0⟩
      else none
    | _, _, _ => none
  | _ => none

/-- Monotone key realising `datetime`'s field-lexicographic comparison for
in-range values (every field after the year is < 100). -/
def dtKey (d : DateTime) : ℤ :=
  ((((d.year * 100 + d.month) * 100 + d.day) * 100 + d.hour) * 100 + d.minute) * 100 + d.second

/-- Comparison `a <= b` on datetimes. -/
def dtLe (a b : DateTime) : Bool :=
  dtKey a ≤ dtKey b

/-- A stored expense document (timestamps omitted, see the header note). -/
structure ExpenseRec where
  amount : ℚ
  category : String
  date : DateTime
  note : String
deriving DecidableEq

/-- A stored budget document (timestamps omitted). -/
structure BudgetRec where
  amount : ℚ
  month : String
  category : String
deriving DecidableEq

/-- Handler outcome: an error response `{'error': msg}, status` or a success
payload. -/
inductive Resp (α : Type) where
  | err (status : ℕ) (msg : String)
  | ok (val : α)
deriving DecidableEq

/-- Outcome of Python `float(...)` on a request-body amount value: `num q`
when the conversion succeeds with value `q` (numbers, booleans and numeric
strings), `nonNumeric t` when it raises `ValueError`/`TypeError`, with `t`
the Python truthiness of the original value. -/
inductive AmountField where
  | num (q : ℚ)
  | nonNumeric (truthy : Bool)
deriving DecidableEq

/-- Python truthiness of an amount value, as `not data[field]` tests it. -/
def AmountField.truthy : AmountField → Bool
  | .num q => decide (q ≠ 0)
  | .nonNumeric t => t

/-- Request body of `POST .../budgets` (fields absent from the JSON object
are `none`). -/
structure BudgetBody where
  amount : Option AmountField
  month : Option String
  category : Option String

/-- The `set_budget` handler of `src/app.py` (store side only): validates the
body in the code's order — empty-body check, required-field/truthiness loop
over `[amount, month, category]`, `float` conversion and positivity, month
`strip`/`split('-')` shape, category `strip` non-emptiness, then the
duplicate query on exact `(month, category)` equality — and only then
appends the new document.  Returns the response and the resulting store. -/
def set_budget (store : List (String × BudgetRec)) (newId : String) (body : BudgetBody) :
    Resp (String × BudgetRec) × List (String × BudgetRec) :=
  if body.amount = none ∧ body.month = none ∧ body.category = none then
    (.err 400 "No data provided", store)
  else
    match body.amount with
    | none => (.err 400 "Missing required field: amount", store)
    | some av =>
      if av.truthy = false then (.err 400 "Missing required field: amount", store)
      else
        match body.month with
        | none => (.err 400 "Missing required field: month", store)
        | some mraw =>
          if mraw = "" then (.err 400 "Missing required field: month", store)
          else
            match body.category with
            | none => (.err 400 "Missing required field: category", store)
            | some craw =>
              if craw = "" then (.err 400 "Missing required field: category", store)
              else
                match av with
                | .nonNumeric _ => (.err 400 "Invalid amount format", store)
                | .num amount =>
                  if amount ≤ 0 then (.err 400 "Amount must be positive", store)
                  else
                    let month := pyStrip mraw
                    if month = "" ∨ (pySplitDash month).length ≠ 2 then
                      (.err 400 "Invalid month format. Use YYYY-MM", store)
                    else
                      let category := pyStrip craw
                      if category = "" then (.err 400 "Category is required", store)
                      else if store.any (fun p => p.2.month == month && p.2.category == category) then
                        (.err 400 "Budget already exists for this category and month", store)
                      else
                        let b : BudgetRec := ⟨amount, month, category⟩
                        (.ok (newId, b), store ++ [(newId, b)])

/-- Request body of `PUT .../budgets/{id}` (partial update). -/
structure UpdateBody where
  amount : Option AmountField
  category : Option String
  month : Option String

/-- The `update_budget` handler of `src/app.py`: empty-body check, 404 lookup
by document id, then per-field validation in the code's order (amount,
category, month); present fields are merged over the stored record (category
and month stored stripped), absent fields keep their prior values. -/
def update_budget (store : List (String × BudgetRec)) (budget_id : String) (body : UpdateBody) :
    Resp (String × BudgetRec) × List (String × BudgetRec) :=
  if body.amount = none ∧ body.category = none ∧ body.month = none then
    (.err 400 "No data provided", store)
  else
    match store.find? (fun p => p.1 == budget_id) with
    | none => (.err 404 "Budget not found", store)
    | some p0 =>
      let b0 := p0.2
      match
        (match body.amount with
         | none => Resp.ok b0.amount
         | some (.nonNumeric _) => Resp.err 400 "Invalid amount format"
         | some (.num q) =>
           if q ≤ 0 then Resp.err 400 "Amount must be positive" else Resp.ok q) with
      | .err s m => (.err s m, store)
      | .ok amt =>
        match
          (match body.category with
           | none => Resp.ok b0.category
           | some c =>
             if pyStrip c = "" then Resp.err 400 "Category cannot be empty"
             else Resp.ok (pyStrip c)) with
        | .err s m => (.err s m, store)
        | .ok cat =>
          match
            (match body.month with
             | none => Resp.ok b0.month
             | some m =>
               if pyStrip m = "" ∨ (pySplitDash (pyStrip m)).length ≠ 2 then
                 Resp.err 400 "Invalid month format. Use YYYY-MM"
               else Resp.ok (pyStrip m)) with
          | .err s m => (.err s m, store)
          | .ok mon =>
            let b1 : BudgetRec := ⟨amt, mon, cat⟩
            (.ok (budget_id, b1),
             store.map fun p => if p.1 == budget_id then (budget_id, b1) else p)

/-- Request body of `POST .../expenses`. -/
structure ExpenseBody where
  amount : Option AmountField
  category : Option String
  date : Option String
  note : Option String

/-- The `add_expense` handler of `src/app.py`: presence check over
`[amount, category, date]` (presence only — no truthiness test and no
category-emptiness validation), `float` conversion and positivity, date
parse, then append of the new document with the category and note stored
stripped. -/
def add_expense (store : List (String × ExpenseRec)) (newId : String) (body : ExpenseBody) :
    Resp (String × ExpenseRec) × List (String × ExpenseRec) :=
  match body.amount with
  | none => (.err 400 "Missing required field: amount", store)
  | some av =>
    match body.category with
    | none => (.err 400 "Missing required field: category", store)
    | some craw =>
      match body.date with
      | none => (.err 400 "Missing required field: date", store)
      | some draw =>
        match av with
        | .nonNumeric _ => (.err 400 "Invalid amount format", store)
        | .num amount =>
          if amount ≤ 0 then (.err 400 "Amount must be positive", store)
          else
            match parse_date draw with
            | none => (.err 400 "Invalid date format. Use YYYY-MM-DD", store)
            | some d =>
              let e : ExpenseRec := ⟨amount, pyStrip craw, d, pyStrip (body.note.getD "")⟩
              (.ok (newId, e), store ++ [(newId, e)])

/-- The shared Firestore expense query of the three read endpoints:
`where('date', '>=', start).where('date', '<=', end)` — inclusive on both
ends. -/
def filterExpenses (store : List (String × ExpenseRec)) (s e : DateTime) :
    List (String × ExpenseRec) :=
  store.filter fun p => dtLe s p.2.date && dtLe p.2.date e

/-- Budget query `where('month', '==', month)` of the analytics endpoints. -/
def monthBudgets (store : List (String × BudgetRec)) (month : String) : List BudgetRec :=
  (store.filter fun p => p.2.month == month).map Prod.snd

/-- Response of `GET .../expenses` (result ordering not modelled). -/
structure ExpenseList where
  expenses : List (String × ExpenseRec)
  month : String
  total_count : ℕ
deriving DecidableEq

/-- The `get_expenses` handler of `src/app.py`: month-range check, then the
inclusive date-range query. -/
def get_expenses (month : String) (store : List (String × ExpenseRec)) : Resp ExpenseList :=
  match get_month_range month with
  | none => .err 400 "Invalid month format. Use YYYY-MM"
  | some (s, e) =>
    let l := filterExpenses store s e
    .ok ⟨l, month, l.length⟩

/-- The summary JSON of `get_summary` (monetary fields carry the rounded
output values). -/
structure Summary where
  month : String
  total_expenses : ℚ
  total_budget : ℚ
  remaining_budget : ℚ
  budget_usage_percent : ℚ
  budget_status : String
  expense_count : ℕ
  budget_count : ℕ
deriving DecidableEq

/-- Aggregation portion of `get_summary` (src/app.py lines 470-502), applied
to the month's expenses and budgets: full-precision sums, remaining = budget
− expenses, usage = expenses / budget × 100 when the budget is positive else
0, the three-way status, and `round(..., 2)` applied to each monetary field
of the response only. -/
def summaryCore (month : String) (expenses : List ExpenseRec) (budgets : List BudgetRec) :
    Summary :=
  let total_expenses := (expenses.map ExpenseRec.amount).sum
  let total_budget := (budgets.map BudgetRec.amount).sum
  let remaining_budget := total_budget - total_expenses
  let budget_usage_percent :=
    if 0 < total_budget then total_expenses / total_budget * 100 else 0
  let budget_status :=
    if total_budget = 0 then "no_budget"
    else if 0 ≤ remaining_budget then "under_budget"
    else "over_budget"
  ⟨month, round2 total_expenses, round2 total_budget, round2 remaining_budget,
   round2 budget_usage_percent, budget_status, expenses.length, budgets.length⟩

/-- The `get_summary` handler of `src/app.py`: month-range check, the two
store queries, then the aggregation. -/
def get_summary (month : String) (estore : List (String × ExpenseRec))
    (bstore : List (String × BudgetRec)) : Resp Summary :=
  match get_month_range month with
  | none => .err 400 "Invalid month format. Use YYYY-MM"
  | some (s, e) =>
    .ok (summaryCore month ((filterExpenses estore s e).map Prod.snd) (monthBudgets bstore month))

/-- Per-category entry of the report (`category_expenses[category]` after the
second loop: `total_amount` and `percentage` rounded, `budget` the raw
looked-up amount). -/
structure CatData where
  total_amount : ℚ
  count : ℕ
  budget : ℚ
  over_budget : Bool
  percentage : ℚ
deriving DecidableEq

/-- The `budget_lookup` dict of `get_report`: keyed by category,
last-write-wins on duplicates, `.get(category, 0)` on lookup. -/
def budgetLookup (budgets : List BudgetRec) (category : String) : ℚ :=
  match budgets.reverse.find? (fun b => b.category == category) with
  | some b => b.amount
  | none => 0

/-- One step of `get_report`'s grouping loop: accumulate an expense into the
insertion-ordered association list of (category, running total, count). -/
def groupStep : List (String × ℚ × ℕ) → ExpenseRec → List (String × ℚ × ℕ)
  | [], e => [(e.category, e.amount, 1)]
  | (c, t, n) :: rest, e =>
    if c = e.category then (c, t + e.amount, n + 1) :: rest
    else (c, t, n) :: groupStep rest e

/-- The grouping loop of `get_report`: expenses grouped by category in first-
seen order (Python dicts preserve insertion order), with per-category running
total and count. -/
def groupExpenses (expenses : List ExpenseRec) : List (String × ℚ × ℕ) :=
  expenses.foldl groupStep []

/-- Second loop of `get_report`, per category: percentage of the grand total
(0 when the grand total is not positive), the over-budget flag computed on
the unrounded total, then rounding of `total_amount` and `percentage` for
output. -/
def reportEntry (bl : String → ℚ) (total_expenses : ℚ) : String × ℚ × ℕ → String × CatData
  | (c, t, n) =>
    let percentage := if 0 < total_expenses then t / total_expenses * 100 else 0
    let over := decide (0 < bl c) && decide (bl c < t)
    (c, ⟨round2 t, n, bl c, over, round2 percentage⟩)

/-- Top-spending tracking of `get_report`'s second loop: strict `>` against a
running maximum starting at `(None, 0)`, so the first category attaining the
maximum wins and a run of non-positive totals leaves `None`. -/
def topCategory (grouped : List (String × ℚ × ℕ)) : Option String × ℚ :=
  grouped.foldl (fun acc g => if acc.2 < g.2.1 then (some g.1, g.2.1) else acc) (none, 0)

/-- The report JSON of `get_report`.  The two chart projections
(`pie_chart_data`, `bar_chart_data`) are sorted copies of the same per-
category data and are not modelled; no claim concerns them. -/
structure Report where
  month : String
  expenses_by_category : List (String × CatData)
  top_spending_category : Option (String × ℚ)
  over_budget_categories_count : ℕ
  total_expenses : ℚ
  total_categories : ℕ
deriving DecidableEq

/-- Aggregation portion of `get_report` (src/app.py lines 527-614), applied to
the month's expenses and budgets.  `top_spending_category` reproduces the
code's `if top_category` truthiness test (an empty-string category counts as
falsy). -/
def reportCore (month : String) (expenses : List ExpenseRec) (budgets : List BudgetRec) :
    Report :=
  let bl := budgetLookup budgets
  let grouped := groupExpenses expenses
  let total := (expenses.map ExpenseRec.amount).sum
  let entries := grouped.map (reportEntry bl total)
  let top := topCategory grouped
  let topField :=
    match top.1 with
    | some c => if c = "" then none else some (c, round2 top.2)
    | none => none
  ⟨month, entries, topField,
   (entries.filter fun p => p.2.over_budget).length,
   round2 total, entries.length⟩

/-- The `get_report` handler of `src/app.py`: month-range check, the two store
queries, then the aggregation. -/
def get_report (month : String) (estore : List (String × ExpenseRec))
    (bstore : List (String × BudgetRec)) : Resp Report :=
  match get_month_range month with
  | none => .err 400 "Invalid month format. Use YYYY-MM"
  | some (s, e) =>
    .ok (reportCore month ((filterExpenses estore s e).map Prod.snd) (monthBudgets bstore month))

/-- Verified identity returned by the external token verifier (only the `uid`
subject is consulted). -/
structure Claims where
  uid : String
deriving DecidableEq

/-- Test of `token.startswith('Bearer ')`. -/
def hasBearerMarker (token : String) : Bool :=
  "Bearer ".toList.isPrefixOf token.toList

/-- The `verify_firebase_token` helper of `src/app.py`, parameterised by the
external verifier: strips an optional `"Bearer "` prefix (`token[7:]`), then
delegates; any verifier failure is `none`. -/
def verify_firebase_token (verify : String → Option Claims) (token : String) : Option Claims :=
  let t := if hasBearerMarker token then String.mk (token.toList.drop 7) else token
  verify t

/-- The `require_auth` decorator of `src/app.py` around a handler: missing (or
falsy, i.e. empty) Authorization header → 401; verification failure → 401;
verified subject different from a non-empty `user_id` path parameter → 403;
otherwise the wrapped handler runs with the verified identity. -/
def require_auth {α : Type} (verify : String → Option Claims) (authHeader : Option String)
    (user_id : String) (handler : Claims → α) : Resp α :=
  match authHeader with
  | none => .err 401 "Authorization header missing"
  | some h =>
    if h = "" then .err 401 "Authorization header missing"
    else
      match verify_firebase_token verify h with
      | none => .err 401 "Invalid or expired token"
      | some tok =>
        if user_id ≠ "" ∧ user_id ≠ tok.uid then .err 403 "Unauthorized access to user data"
        else .ok (handler tok)

/-! ## Helper lemmas -/

theorem round2_zero : round2 0 = 0 := by decide

theorem summaryCore_usage (month : String) (es : List ExpenseRec) (bs : List BudgetRec) :
    (summaryCore month es bs).budget_usage_percent
      = round2 (if 0 < (bs.map BudgetRec.amount).sum
          then (es.map ExpenseRec.amount).sum / (bs.map BudgetRec.amount).sum * 100 else 0) := rfl

theorem summaryCore_status (month : String) (es : List ExpenseRec) (bs : List BudgetRec) :
    (summaryCore month es bs).budget_status
      = (if (bs.map BudgetRec.amount).sum = 0 then "no_budget"
         else if 0 ≤ (bs.map BudgetRec.amount).sum - (es.map ExpenseRec.amount).sum
           then "under_budget" else "over_budget") := rfl

/-! ## C1 -/

/-- C1: for every set of month expenses and (non-negatively priced, as write
validation guarantees) budgets, the summary's `budget_usage_percent` is the
2-decimal rounding of `total_expenses / total_budget * 100` when
`total_budget > 0` and of `0` when `total_budget = 0`, and `budget_status` is
`no_budget` exactly when `total_budget = 0`, `under_budget` exactly when
`total_budget > 0` and the (unrounded) remaining budget is `≥ 0`, and
`over_budget` exactly when `total_budget > 0` and the remaining budget is
`< 0`; in particular `total_budget = 0` forces status `no_budget` and usage
`0` no matter how large the expense total is. -/
theorem C1_summary_usage_and_status (month : String) (es : List ExpenseRec)
    (bs : List BudgetRec) (hb : ∀ b ∈ bs, 0 ≤ b.amount) :
    ((summaryCore month es bs).budget_usage_percent
        = round2 (if 0 < (bs.map BudgetRec.amount).sum
            then (es.map ExpenseRec.amount).sum / (bs.map BudgetRec.amount).sum * 100 else 0))
    ∧ ((summaryCore month es bs).budget_status = "no_budget"
        ↔ (bs.map BudgetRec.amount).sum = 0)
    ∧ ((summaryCore month es bs).budget_status = "under_budget"
        ↔ 0 < (bs.map BudgetRec.amount).sum
          ∧ 0 ≤ (bs.map BudgetRec.amount).sum - (es.map ExpenseRec.amount).sum)
    ∧ ((summaryCore month es bs).budget_status = "over_budget"
        ↔ 0 < (bs.map BudgetRec.amount).sum
          ∧ (bs.map BudgetRec.amount).sum - (es.map ExpenseRec.amount).sum < 0)
    ∧ ((bs.map BudgetRec.amount).sum = 0 →
        (summaryCore month es bs).budget_status = "no_budget"
        ∧ (summaryCore month es bs).budget_usage_percent = 0) := by
  have h0 : 0 ≤ (bs.map BudgetRec.amount).sum := by
    apply List.sum_nonneg
    intro x hx
    rcases List.mem_map.1 hx with ⟨b, hbm, rfl⟩
    exact hb b hbm
  refine ⟨summaryCore_usage month es bs, ?_, ?_, ?_, ?_⟩ <;>
    rw [summaryCore_status]
  · rcases h0.lt_or_eq with hpos | heq
    · rw [if_neg (ne_of_gt hpos)]
      constructor
      · intro h
        by_cases hr : 0 ≤ (bs.map BudgetRec.amount).sum - (es.map ExpenseRec.amount).sum
        · rw [if_pos hr] at h; exact absurd h (by decide)
        · rw [if_neg hr] at h; exact absurd h (by decide)
      · intro h; exact absurd h (ne_of_gt hpos)
    · rw [if_pos heq.symm]
      exact ⟨fun _ => heq.symm, fun _ => rfl⟩
  · rcases h0.lt_or_eq with hpos | heq
    · rw [if_neg (ne_of_gt hpos)]
      by_cases hr : 0 ≤ (bs.map BudgetRec.amount).sum - (es.map ExpenseRec.amount).sum
      · rw [if_pos hr]; exact ⟨fun _ => ⟨hpos, hr⟩, fun _ => rfl⟩
      · rw [if_neg hr]
        exact ⟨fun h => absurd h (by decide), fun h => absurd h.2 hr⟩
    · rw [if_pos heq.symm]
      exact ⟨fun h => absurd h (by decide), fun h => absurd heq (ne_of_gt h.1).symm⟩
  · rcases h0.lt_or_eq with hpos | heq
    · rw [if_neg (ne_of_gt hpos)]
      by_cases hr : 0 ≤ (bs.map BudgetRec.amount).sum - (es.map ExpenseRec.amount).sum
      · rw [if_pos hr]
        exact ⟨fun h => absurd h (by decide), fun h => absurd hr (not_le.2 h.2)⟩
      · rw [if_neg hr]; exact ⟨fun _ => ⟨hpos, not_le.1 hr⟩, fun _ => rfl⟩
    · rw [if_pos heq.symm]
      exact ⟨fun h => absurd h (by decide), fun h => absurd heq (ne_of_gt h.1).symm⟩
  · intro heq
    refine ⟨by rw [if_pos heq], ?_⟩
    rw [summaryCore_usage, heq]
    simpa using round2_zero

/-- Witness for C1 at a concrete input: one budget of 40 and one expense of
30 give status `under_budget`, and an expense-only month gives status
`no_budget` with usage 0. -/
theorem C1_summary_usage_and_status_witness :
    (summaryCore "2024-01" [⟨30, "Food", ⟨2024, 1, 5, 0, 0, 0⟩, ""⟩]
        [⟨40, "2024-01", "Food"⟩]).budget_status = "under_budget"
    ∧ (summaryCore "2024-01" [⟨999999, "Food", ⟨2024, 1, 5, 0, 0, 0⟩, ""⟩]
        []).budget_status = "no_budget"
    ∧ (summaryCore "2024-01" [⟨999999, "Food", ⟨2024, 1, 5, 0, 0, 0⟩, ""⟩]
        []).budget_usage_percent = 0 := by
  refine ⟨?_, ?_, ?_⟩
  · exact ((C1_summary_usage_and_status "2024-01"
      [⟨30, "Food", ⟨2024, 1, 5, 0, 0, 0⟩, ""⟩] [⟨40, "2024-01", "Food"⟩]
      (by intro b hbm; rw [List.mem_singleton] at hbm; subst hbm; decide)).2.2.1).2
      ⟨by decide, by decide⟩
  · exact ((C1_summary_usage_and_status "2024-01"
      [⟨999999, "Food", ⟨2024, 1, 5, 0, 0, 0⟩, ""⟩] []
      (by intro b hbm; exact absurd hbm (List.not_mem_nil b))).2.2.2.2 (by decide)).1
  · exact ((C1_summary_usage_and_status "2024-01"
      [⟨999999, "Food", ⟨2024, 1, 5, 0, 0, 0⟩, ""⟩] []
      (by intro b hbm; exact absurd hbm (List.not_mem_nil b))).2.2.2.2 (by decide)).2

/-! ## C2 -/

/-- C2: the summary's `remaining_budget` is the single 2-decimal rounding of
the exact difference `total_budget − total_expenses` of the unrounded sums,
and likewise each monetary output field is the rounding of its exact
full-precision value — rounding happens once per field at the response
boundary, never during accumulation. -/
theorem C2_remaining_budget_exact (month : String) (es : List ExpenseRec)
    (bs : List BudgetRec) :
    (summaryCore month es bs).remaining_budget
      = round2 ((bs.map BudgetRec.amount).sum - (es.map ExpenseRec.amount).sum)
    ∧ (summaryCore month es bs).total_expenses = round2 ((es.map ExpenseRec.amount).sum)
    ∧ (summaryCore month es bs).total_budget = round2 ((bs.map BudgetRec.amount).sum) :=
  ⟨rfl, rfl, rfl⟩

/-! ## C3 -/

theorem groupStep_total (l : List (String × ℚ × ℕ)) (e : ExpenseRec) :
    ((groupStep l e).map (fun g => g.2.1)).sum
      = (l.map (fun g => g.2.1)).sum + e.amount := by
  induction l with
  | nil => simp [groupStep]
  | cons hd tl ih =>
    obtain ⟨c, t, n⟩ := hd
    by_cases hc : c = e.category
    · simp only [groupStep, if_pos hc, List.map_cons, List.sum_cons]
      ring
    · simp only [groupStep, if_neg hc, List.map_cons, List.sum_cons, ih]
      ring

theorem groupExpenses_total_aux (es : List ExpenseRec) (acc : List (String × ℚ × ℕ)) :
    ((es.foldl groupStep acc).map (fun g => g.2.1)).sum
      = (acc.map (fun g => g.2.1)).sum + (es.map ExpenseRec.amount).sum := by
  induction es generalizing acc with
  | nil => simp
  | cons e rest ih =>
    simp only [List.foldl_cons, List.map_cons, List.sum_cons, ih, groupStep_total]
    ring

theorem groupExpenses_total (es : List ExpenseRec) :
    ((groupExpenses es).map (fun g => g.2.1)).sum = (es.map ExpenseRec.amount).sum := by
  simpa [groupExpenses] using groupExpenses_total_aux es []

theorem sum_map_div_mul (l : List (String × ℚ × ℕ)) (T : ℚ) :
    (l.map (fun g => g.2.1 / T * 100)).sum = (l.map (fun g => g.2.1)).sum / T * 100 := by
  induction l with
  | nil => simp
  | cons hd tl ih =>
    simp only [List.map_cons, List.sum_cons, ih]
    ring

theorem reportCore_entries (month : String) (es : List ExpenseRec) (bs : List BudgetRec) :
    (reportCore month es bs).expenses_by_category
      = (groupExpenses es).map
          (reportEntry (budgetLookup bs) ((es.map ExpenseRec.amount).sum)) := rfl

/-- C3: the per-category totals accumulated by `get_report`'s grouping loop
sum exactly to the grand expense total; when the grand total is positive the
unrounded per-category percentages `category_total / grand_total * 100` sum
exactly to 100 (so the rounded output values agree with the claim up to the
per-category output rounding); and when the grand total is 0 every category's
output percentage is 0. -/
theorem C3_report_category_totals (month : String) (es : List ExpenseRec)
    (bs : List BudgetRec) :
    (((groupExpenses es).map (fun g => g.2.1)).sum = (es.map ExpenseRec.amount).sum)
    ∧ (0 < (es.map ExpenseRec.amount).sum →
        ((groupExpenses es).map
            (fun g => g.2.1 / (es.map ExpenseRec.amount).sum * 100)).sum = 100)
    ∧ ((es.map ExpenseRec.amount).sum = 0 →
        ∀ p ∈ (reportCore month es bs).expenses_by_category, p.2.percentage = 0) := by
  refine ⟨groupExpenses_total es, ?_, ?_⟩
  · intro hpos
    rw [sum_map_div_mul, groupExpenses_total, div_self (ne_of_gt hpos)]
    norm_num
  · intro h0 p hp
    rw [reportCore_entries] at hp
    rcases List.mem_map.1 hp with ⟨g, _, rfl⟩
    obtain ⟨c, t, n⟩ := g
    show round2 (if 0 < (es.map ExpenseRec.amount).sum
        then t / (es.map ExpenseRec.amount).sum * 100 else 0) = 0
    rw [h0, if_neg (lt_irrefl 0)]
    exact round2_zero

/-- Witness for C3 at concrete inputs: the example month's percentages sum to
100, and a month whose amounts cancel to a zero grand total reports
percentage 0 for its (present) category. -/
theorem C3_report_category_totals_witness :
    (((groupExpenses
          [⟨30, "Food", ⟨2024, 1, 5, 0, 0, 0⟩, ""⟩, ⟨20, "Food", ⟨2024, 1, 6, 0, 0, 0⟩, ""⟩,
           ⟨25, "Transport", ⟨2024, 1, 7, 0, 0, 0⟩, ""⟩]).map
        (fun g => g.2.1 /
          (([⟨30, "Food", ⟨2024, 1, 5, 0, 0, 0⟩, ""⟩, ⟨20, "Food", ⟨2024, 1, 6, 0, 0, 0⟩, ""⟩,
             ⟨25, "Transport", ⟨2024, 1, 7, 0, 0, 0⟩, ""⟩] : List ExpenseRec).map
              ExpenseRec.amount).sum * 100)).sum = 100)
    ∧ (("A", (⟨0, 2, 0, false, 0⟩ : CatData)).2.percentage = 0) := by
  constructor
  · exact (C3_report_category_totals "2024-01"
      [⟨30, "Food", ⟨2024, 1, 5, 0, 0, 0⟩, ""⟩, ⟨20, "Food", ⟨2024, 1, 6, 0, 0, 0⟩, ""⟩,
       ⟨25, "Transport", ⟨2024, 1, 7, 0, 0, 0⟩, ""⟩] []).2.1 (by decide)
  · exact (C3_report_category_totals "2024-01"
      [⟨5, "A", ⟨2024, 1, 5, 0, 0, 0⟩, ""⟩, ⟨-5, "A", ⟨2024, 1, 6, 0, 0, 0⟩, ""⟩] []).2.2
      (by decide) ("A", ⟨0, 2, 0, false, 0⟩) (by decide)

/-! ## C4 -/

theorem groupStep_fst (l : List (String × ℚ × ℕ)) (e : ExpenseRec) (c : String) :
    (c ∈ (groupStep l e).map Prod.fst ↔ c ∈ l.map Prod.fst ∨ c = e.category) := by
  induction l with
  | nil => simp [groupStep]
  | cons hd tl ih =>
    obtain ⟨c', t, n⟩ := hd
    by_cases h : c' = e.category
    · subst h
      have hstep : groupStep ((e.category, t, n) :: tl) e
          = (e.category, t + e.amount, n + 1) :: tl := by
        simp [groupStep]
      rw [hstep]
      simp only [List.map_cons, List.mem_cons]
      tauto
    · have hstep : groupStep ((c', t, n) :: tl) e = (c', t, n) :: groupStep tl e := by
        simp [groupStep, h]
      rw [hstep]
      simp only [List.map_cons, List.mem_cons, ih]
      tauto

theorem groupExpenses_fst_aux (es : List ExpenseRec) (acc : List (String × ℚ × ℕ))
    (c : String) :
    c ∈ (es.foldl groupStep acc).map Prod.fst
      ↔ c ∈ acc.map Prod.fst ∨ c ∈ es.map ExpenseRec.category := by
  induction es generalizing acc with
  | nil => simp
  | cons e rest ih =>
    simp only [List.foldl_cons, List.map_cons, List.mem_cons, ih, groupStep_fst]
    tauto

theorem groupExpenses_fst (es : List ExpenseRec) (c : String) :
    c ∈ (groupExpenses es).map Prod.fst ↔ c ∈ es.map ExpenseRec.category := by
  simpa [groupExpenses] using groupExpenses_fst_aux es [] c

theorem reportEntry_fst (bl : String → ℚ) (T : ℚ) (g : String × ℚ × ℕ) :
    (reportEntry bl T g).1 = g.1 := by
  obtain ⟨c, t, n⟩ := g
  rfl

/-- C4: on the spec's concrete example (expenses Food 30, Food 20, Transport
25; budget Food 40) the report is exactly the expected one — Food
{50, 2, 40, over_budget, 66.67%}, Transport {25, 1, 0, not over, 33.33%},
top category Food with 50, one over-budget category; in general an entry is
flagged `over_budget` iff its looked-up budget is positive and its
(unrounded) accumulated total exceeds that budget; and a category appears in
the report iff some expense carries it — so a category with a budget but no
expenses never appears. -/
theorem C4_report_example_flags_and_keys :
    (reportCore "2024-01"
        [⟨30, "Food", ⟨2024, 1, 5, 0, 0, 0⟩, ""⟩, ⟨20, "Food", ⟨2024, 1, 6, 0, 0, 0⟩, ""⟩,
         ⟨25, "Transport", ⟨2024, 1, 7, 0, 0, 0⟩, ""⟩]
        [⟨40, "2024-01", "Food"⟩]
      = ⟨"2024-01",
         [("Food", ⟨50, 2, 40, true, 6667/100⟩), ("Transport", ⟨25, 1, 0, false, 3333/100⟩)],
         some ("Food", 50), 1, 75, 2⟩)
    ∧ (∀ (es : List ExpenseRec) (bs : List BudgetRec) (T : ℚ) (g : String × ℚ × ℕ),
        g ∈ groupExpenses es →
          ((reportEntry (budgetLookup bs) T g).2.over_budget = true
            ↔ 0 < budgetLookup bs g.1 ∧ budgetLookup bs g.1 < g.2.1))
    ∧ (∀ (month : String) (es : List ExpenseRec) (bs : List BudgetRec) (c : String),
        (∃ d, (c, d) ∈ (reportCore month es bs).expenses_by_category)
          ↔ c ∈ es.map ExpenseRec.category) := by
  refine ⟨by decide, ?_, ?_⟩
  · intro es bs T g _
    obtain ⟨c, t, n⟩ := g
    show (decide (0 < budgetLookup bs c) && decide (budgetLookup bs c < t)) = true ↔ _
    rw [Bool.and_eq_true, decide_eq_true_iff, decide_eq_true_iff]
  · intro month es bs c
    rw [← groupExpenses_fst es c, reportCore_entries]
    constructor
    · rintro ⟨d, hd⟩
      rcases List.mem_map.1 hd with ⟨g, hg, he⟩
      have : g.1 = c := by
        have h1 := reportEntry_fst (budgetLookup bs) ((es.map ExpenseRec.amount).sum) g
        rw [he] at h1
        exact h1.symm
      exact List.mem_map.2 ⟨g, hg, this⟩
    · intro hc
      rcases List.mem_map.1 hc with ⟨g, hg, he⟩
      refine ⟨(reportEntry (budgetLookup bs) ((es.map ExpenseRec.amount).sum) g).2,
        List.mem_map.2 ⟨g, hg, ?_⟩⟩
      have h1 := reportEntry_fst (budgetLookup bs) ((es.map ExpenseRec.amount).sum) g
      rw [he] at h1
      rw [← h1]

/-- Witness for C4: the over-budget iff applied to the example's Food entry,
and the key characterisation applied to Transport. -/
theorem C4_report_example_flags_and_keys_witness :
    (reportEntry (budgetLookup [⟨40, "2024-01", "Food"⟩]) 75
        ("Food", (50 : ℚ), 2)).2.over_budget = true
    ∧ "Transport" ∈ ([⟨30, "Food", ⟨2024, 1, 5, 0, 0, 0⟩, ""⟩,
        ⟨20, "Food", ⟨2024, 1, 6, 0, 0, 0⟩, ""⟩,
        ⟨25, "Transport", ⟨2024, 1, 7, 0, 0, 0⟩, ""⟩] : List ExpenseRec).map
          ExpenseRec.category := by
  constructor
  · exact (C4_report_example_flags_and_keys.2.1
      [⟨30, "Food", ⟨2024, 1, 5, 0, 0, 0⟩, ""⟩, ⟨20, "Food", ⟨2024, 1, 6, 0, 0, 0⟩, ""⟩,
       ⟨25, "Transport", ⟨2024, 1, 7, 0, 0, 0⟩, ""⟩]
      [⟨40, "2024-01", "Food"⟩] 75 ("Food", (50 : ℚ), 2) (by decide)).2 ⟨by decide, by decide⟩
  · exact (C4_report_example_flags_and_keys.2.2 "2024-01"
      [⟨30, "Food", ⟨2024, 1, 5, 0, 0, 0⟩, ""⟩, ⟨20, "Food", ⟨2024, 1, 6, 0, 0, 0⟩, ""⟩,
       ⟨25, "Transport", ⟨2024, 1, 7, 0, 0, 0⟩, ""⟩]
      [⟨40, "2024-01", "Food"⟩] "Transport").1
      ⟨⟨25, 1, 0, false, 3333/100⟩, by decide⟩

/-! ## C5 -/

/-- C5: when a budget with the same stripped (month, category) pair is
already in the user's store, `set_budget` — after the field validations the
duplicate check sits behind — fails with the 400 duplicate (`Conflict`)
response produced by the exact-equality existence query, and the store is
returned unchanged: no new budget record is written. -/
theorem C5_duplicate_budget_conflict (store : List (String × BudgetRec)) (newId : String)
    (q : ℚ) (mraw craw : String) (hq : 0 < q) (hm : mraw ≠ "") (hc : craw ≠ "")
    (hms : pyStrip mraw ≠ "") (hml : (pySplitDash (pyStrip mraw)).length = 2)
    (hcs : pyStrip craw ≠ "")
    (hdup : ∃ p ∈ store, p.2.month = pyStrip mraw ∧ p.2.category = pyStrip craw) :
    set_budget store newId ⟨some (.num q), some mraw, some craw⟩
      = (.err 400 "Budget already exists for this category and month", store) := by
  have htr : AmountField.truthy (.num q) = true := by
    simp only [AmountField.truthy, decide_eq_true_iff]
    exact ne_of_gt hq
  have hany : store.any
      (fun p => p.2.month == pyStrip mraw && p.2.category == pyStrip craw) = true := by
    rw [List.any_eq_true]
    obtain ⟨p, hp, h1, h2⟩ := hdup
    exact ⟨p, hp, by rw [Bool.and_eq_true, beq_iff_eq, beq_iff_eq]; exact ⟨h1, h2⟩⟩
  simp [set_budget, htr, hm, hc, hms, hml, hcs, not_le.2 hq, hany]

/-- Witness for C5: a second Food budget for 2024-01 is rejected and the
store keeps only the first one. -/
theorem C5_duplicate_budget_conflict_witness :
    set_budget [("b0", ⟨40, "2024-01", "Food"⟩)] "b1"
        ⟨some (.num 50), some "2024-01", some "Food"⟩
      = (.err 400 "Budget already exists for this category and month",
         [("b0", ⟨40, "2024-01", "Food"⟩)]) :=
  C5_duplicate_budget_conflict [("b0", ⟨40, "2024-01", "Food"⟩)] "b1" 50 "2024-01" "Food"
    (by decide) (by decide) (by decide) (by decide) (by decide) (by decide)
    ⟨("b0", ⟨40, "2024-01", "Food"⟩), by decide, by decide, by decide⟩

/-! ## C6 -/

/-- The `set_budget` / `add_expense` error messages that name the amount
field. -/
def amountErrorMsgs : List String :=
  ["Missing required field: amount", "Amount must be positive", "Invalid amount format"]

/-- C6 counterexample: a body whose amount is non-numeric (and truthy, e.g.
the string "abc") but whose month field is missing makes `set_budget` fail
with the month error, not an amount-identifying one — the required-field
loop reports the first missing/falsy field before the amount is ever
converted, so the claim's "error identifying the amount problem" fails as
universally stated (the request still fails with 400 and nothing is
persisted). -/
theorem C6_counterexample :
    set_budget [] "b1" ⟨some (.nonNumeric true), none, some "Food"⟩
      = (.err 400 "Missing required field: month", [])
    ∧ "Missing required field: month" ∉ amountErrorMsgs :=
  ⟨by decide, by decide⟩

/-- C6 amended: for every body whose amount is non-numeric or parses to a
value ≤ 0, budget creation fails with a 400 error naming the amount field
provided the month and category fields are present and non-empty (so the
required-field loop does not fail on them first), and expense creation
fails with a 400 amount error whenever category and date are present; in
both cases the store is returned unchanged. -/
theorem C6_amount_validation_amended (av : AmountField)
    (hbad : (∃ t, av = .nonNumeric t) ∨ ∃ q, av = .num q ∧ q ≤ 0) :
    (∀ (bstore : List (String × BudgetRec)) (newId mraw craw : String),
        mraw ≠ "" → craw ≠ "" →
        (set_budget bstore newId ⟨some av, some mraw, some craw⟩).1
            ∈ amountErrorMsgs.map (fun msg => (Resp.err 400 msg : Resp (String × BudgetRec)))
          ∧ (set_budget bstore newId ⟨some av, some mraw, some craw⟩).2 = bstore)
    ∧ (∀ (estore : List (String × ExpenseRec)) (newId craw draw : String)
          (note : Option String),
        (add_expense estore newId ⟨some av, some craw, some draw, note⟩).1
            ∈ amountErrorMsgs.map (fun msg => (Resp.err 400 msg : Resp (String × ExpenseRec)))
          ∧ (add_expense estore newId ⟨some av, some craw, some draw, note⟩).2 = estore) := by
  constructor
  · intro bstore newId mraw craw hm hc
    rcases hbad with ⟨t, rfl⟩ | ⟨q, rfl, hq⟩
    · cases t
      · have heqn : set_budget bstore newId ⟨some (.nonNumeric false), some mraw, some craw⟩
            = (.err 400 "Missing required field: amount", bstore) := by
          simp [set_budget, AmountField.truthy]
        rw [heqn]
        exact ⟨by simp [amountErrorMsgs], rfl⟩
      · have heqn : set_budget bstore newId ⟨some (.nonNumeric true), some mraw, some craw⟩
            = (.err 400 "Invalid amount format", bstore) := by
          simp [set_budget, AmountField.truthy, hm, hc]
        rw [heqn]
        exact ⟨by simp [amountErrorMsgs], rfl⟩
    · rcases eq_or_lt_of_le hq with heq | hlt
      · have heqn : set_budget bstore newId ⟨some (.num q), some mraw, some craw⟩
            = (.err 400 "Missing required field: amount", bstore) := by
          simp [set_budget, AmountField.truthy, heq]
        rw [heqn]
        exact ⟨by simp [amountErrorMsgs], rfl⟩
      · have heqn : set_budget bstore newId ⟨some (.num q), some mraw, some craw⟩
            = (.err 400 "Amount must be positive", bstore) := by
          simp [set_budget, AmountField.truthy, ne_of_lt hlt, hm, hc, hq]
        rw [heqn]
        exact ⟨by simp [amountErrorMsgs], rfl⟩
  · intro estore newId craw draw note
    rcases hbad with ⟨t, rfl⟩ | ⟨q, rfl, hq⟩
    · have heqn : add_expense estore newId ⟨some (.nonNumeric t), some craw, some draw, note⟩
          = (.err 400 "Invalid amount format", estore) := by
        simp [add_expense]
      rw [heqn]
      exact ⟨by simp [amountErrorMsgs], rfl⟩
    · have heqn : add_expense estore newId ⟨some (.num q), some craw, some draw, note⟩
          = (.err 400 "Amount must be positive", estore) := by
        simp [add_expense, hq]
      rw [heqn]
      exact ⟨by simp [amountErrorMsgs], rfl⟩

/-- Witness for C6's amended statement at amount −5. -/
theorem C6_amount_validation_amended_witness :
    ((set_budget [] "b1" ⟨some (.num (-5)), some "2024-01", some "Food"⟩).1
        ∈ amountErrorMsgs.map (fun msg => (Resp.err 400 msg : Resp (String × BudgetRec)))
      ∧ (set_budget [] "b1" ⟨some (.num (-5)), some "2024-01", some "Food"⟩).2 = [])
    ∧ ((add_expense [] "e1" ⟨some (.num (-5)), some "Food", some "2024-03-15", none⟩).1
        ∈ amountErrorMsgs.map (fun msg => (Resp.err 400 msg : Resp (String × ExpenseRec)))
      ∧ (add_expense [] "e1" ⟨some (.num (-5)), some "Food", some "2024-03-15", none⟩).2 = []) :=
  ⟨(C6_amount_validation_amended (.num (-5)) (Or.inr ⟨-5, rfl, by decide⟩)).1
      [] "b1" "2024-01" "Food" (by decide) (by decide),
   (C6_amount_validation_amended (.num (-5)) (Or.inr ⟨-5, rfl, by decide⟩)).2
      [] "e1" "Food" "2024-03-15" none⟩

/-! ## C7 -/

/-- C7 counterexample: `add_expense` performs no category-emptiness check, so
an expense whose category is whitespace-only is accepted (201) and persisted
with the empty trimmed category — contradicting the claim that every write
operation carrying a category rejects an empty-after-trim category and that
no stored expense ever has one. -/
theorem C7_counterexample :
    add_expense [] "e1" ⟨some (.num 5), some "   ", some "2024-03-15", none⟩
      = (.ok ("e1", ⟨5, "", ⟨2024, 3, 15, 0, 0, 0⟩, ""⟩),
         [("e1", ⟨5, "", ⟨2024, 3, 15, 0, 0, 0⟩, ""⟩)])
    ∧ pyStrip "   " = "" :=
  ⟨by decide, by decide⟩

/-- C7 amended: budget creation and budget update reject an empty-after-trim
category with a 400 error naming the category field and leave the store
unchanged (whenever the fields their fixed validation order checks earlier
are valid), but expense creation performs no category-emptiness check: it
persists the stripped category as-is, so a stored expense can have an empty
category. -/
theorem C7_category_validation_amended :
    (∀ (bstore : List (String × BudgetRec)) (newId : String) (q : ℚ) (mraw craw : String),
        0 < q → mraw ≠ "" → pyStrip mraw ≠ "" → (pySplitDash (pyStrip mraw)).length = 2 →
        craw ≠ "" → pyStrip craw = "" →
        set_budget bstore newId ⟨some (.num q), some mraw, some craw⟩
          = (.err 400 "Category is required", bstore))
    ∧ (∀ (bstore : List (String × BudgetRec)) (bid craw : String) (body : UpdateBody)
          (p0 : String × BudgetRec),
        bstore.find? (fun p => p.1 == bid) = some p0 →
        body.amount = none → body.category = some craw → pyStrip craw = "" →
        update_budget bstore bid body = (.err 400 "Category cannot be empty", bstore))
    ∧ (∀ (estore : List (String × ExpenseRec)) (newId : String) (q : ℚ)
          (craw draw : String) (note : Option String) (d : DateTime),
        0 < q → parse_date draw = some d →
        add_expense estore newId ⟨some (.num q), some craw, some draw, note⟩
          = (.ok (newId, ⟨q, pyStrip craw, d, pyStrip (note.getD "")⟩),
             estore ++ [(newId, ⟨q, pyStrip craw, d, pyStrip (note.getD "")⟩)])) := by
  refine ⟨?_, ?_, ?_⟩
  · intro bstore newId q mraw craw hq hm hms hml hc hcs
    have htr : AmountField.truthy (.num q) = true := by
      simp only [AmountField.truthy, decide_eq_true_iff]
      exact ne_of_gt hq
    simp [set_budget, htr, hm, hc, hms, hml, hcs, not_le.2 hq]
  · intro bstore bid craw body p0 hfind hamt hcat hcs
    obtain ⟨ba, bc, bm⟩ := body
    simp only at hamt hcat
    subst hamt
    subst hcat
    simp [update_budget, hfind, hcs]
  · intro estore newId q craw draw note d hq hdate
    simp [add_expense, not_le.2 hq, hdate]

/-- Witness for C7's amended statement: budget create and update both reject
a whitespace category, and an expense with one is persisted stripped. -/
theorem C7_category_validation_amended_witness :
    set_budget [] "b1" ⟨some (.num 10), some "2024-01", some "   "⟩
      = (.err 400 "Category is required", [])
    ∧ update_budget [("b0", ⟨40, "2024-01", "Food"⟩)] "b0" ⟨none, some " ", none⟩
      = (.err 400 "Category cannot be empty", [("b0", ⟨40, "2024-01", "Food"⟩)])
    ∧ add_expense [] "e2" ⟨some (.num 7), some "  Food  ", some "2024-03-15", none⟩
      = (.ok ("e2", ⟨7, "Food", ⟨2024, 3, 15, 0, 0, 0⟩, ""⟩),
         [("e2", ⟨7, "Food", ⟨2024, 3, 15, 0, 0, 0⟩, ""⟩)]) :=
  ⟨C7_category_validation_amended.1 [] "b1" 10 "2024-01" "   "
      (by decide) (by decide) (by decide) (by decide) (by decide) (by decide),
   C7_category_validation_amended.2.1 [("b0", ⟨40, "2024-01", "Food"⟩)] "b0" " "
      ⟨none, some " ", none⟩ ("b0", ⟨40, "2024-01", "Food"⟩)
      (by decide) rfl rfl (by decide),
   C7_category_validation_amended.2.2 [] "e2" 7 "  Food  " "2024-03-15" none
      ⟨2024, 3, 15, 0, 0, 0⟩ (by decide) (by decide)⟩

/-! ## C8 -/

/-- C8: `get_month_range` on the leap-year example "2024-02" yields the
inclusive range [2024-02-01 00:00:00, 2024-02-29 23:59:59]; in general every
month string whose two dash components parse as a constructible year and
month maps to [first day 00:00:00, last day 23:59:59] using the calendar
month length, which always lies between 28 and 31 days; and the expense
listing, summary and report endpoints all filter the store's expenses by
date inclusively within exactly this range. -/
theorem C8_month_range_and_filtering :
    (get_month_range "2024-02" = some (⟨2024, 2, 1, 0, 0, 0⟩, ⟨2024, 2, 29, 23, 59, 59⟩))
    ∧ (∀ (str ys ms : String) (y m : ℤ),
        pySplitDash str = [ys, ms] → pyInt? ys = some y → pyInt? ms = some m →
        1 ≤ y → y ≤ 9999 → 1 ≤ m → m ≤ 12 →
        get_month_range str
          = some (⟨y, m.toNat, 1, 0, 0, 0⟩, ⟨y, m.toNat, daysInMonth y m.toNat, 23, 59, 59⟩))
    ∧ (∀ (y : ℤ) (m : ℕ), 1 ≤ m → m ≤ 12 → 28 ≤ daysInMonth y m ∧ daysInMonth y m ≤ 31)
    ∧ (∀ (month : String) (s e : DateTime), get_month_range month = some (s, e) →
        (∀ (estore : List (String × ExpenseRec)) (p : String × ExpenseRec),
            p ∈ filterExpenses estore s e
              ↔ p ∈ estore ∧ dtLe s p.2.date = true ∧ dtLe p.2.date e = true)
        ∧ (∀ (estore : List (String × ExpenseRec)) (bstore : List (String × BudgetRec)),
            get_expenses month estore
                = .ok ⟨filterExpenses estore s e, month, (filterExpenses estore s e).length⟩
            ∧ get_summary month estore bstore
                = .ok (summaryCore month ((filterExpenses estore s e).map Prod.snd)
                    (monthBudgets bstore month))
            ∧ get_report month estore bstore
                = .ok (reportCore month ((filterExpenses estore s e).map Prod.snd)
                    (monthBudgets bstore month)))) := by
  refine ⟨by decide, ?_, ?_, ?_⟩
  · intro str ys ms y m hsplit hy hm h1 h2 h3 h4
    rw [get_month_range, hsplit]
    simp only [hy, hm]
    rw [if_pos ⟨h1, h2, h3, h4⟩]
  · intro y m h1 h2
    interval_cases m <;> cases hy : isLeap y <;> simp [daysInMonth, hy]
  · intro month s e h
    refine ⟨?_, ?_⟩
    · intro estore p
      simp [filterExpenses, List.mem_filter, Bool.and_eq_true]
    · intro estore bstore
      refine ⟨?_, ?_, ?_⟩
      · rw [get_expenses, h]
      · rw [get_summary, h]
      · rw [get_report, h]

/-- Witness for C8 at concrete inputs: June 2025 has 30 days, February has
28 days in the non-leap year 2023, and the summary endpoint for "2024-02"
on a one-expense store aggregates exactly the in-range expense. -/
theorem C8_month_range_and_filtering_witness :
    (get_month_range "2025-06" = some (⟨2025, 6, 1, 0, 0, 0⟩, ⟨2025, 6, 30, 23, 59, 59⟩))
    ∧ (28 ≤ daysInMonth 2023 2 ∧ daysInMonth 2023 2 ≤ 31)
    ∧ (("e1", (⟨10, "Food", ⟨2024, 2, 29, 0, 0, 0⟩, ""⟩ : ExpenseRec))
        ∈ filterExpenses [("e1", ⟨10, "Food", ⟨2024, 2, 29, 0, 0, 0⟩, ""⟩)]
            ⟨2024, 2, 1, 0, 0, 0⟩ ⟨2024, 2, 29, 23, 59, 59⟩
      ↔ ("e1", (⟨10, "Food", ⟨2024, 2, 29, 0, 0, 0⟩, ""⟩ : ExpenseRec))
          ∈ [("e1", ⟨10, "Food", ⟨2024, 2, 29, 0, 0, 0⟩, ""⟩)]
        ∧ dtLe ⟨2024, 2, 1, 0, 0, 0⟩ ⟨2024, 2, 29, 0, 0, 0⟩ = true
        ∧ dtLe ⟨2024, 2, 29, 0, 0, 0⟩ ⟨2024, 2, 29, 23, 59, 59⟩ = true) :=
  ⟨C8_month_range_and_filtering.2.1 "2025-06" "2025" "06" 2025 6
      (by decide) (by decide) (by decide) (by decide) (by decide) (by decide) (by decide),
   C8_month_range_and_filtering.2.2.1 2023 2 (by decide) (by decide),
   (C8_month_range_and_filtering.2.2.2 "2024-02"
      ⟨2024, 2, 1, 0, 0, 0⟩ ⟨2024, 2, 29, 23, 59, 59⟩ (by decide)).1
      [("e1", ⟨10, "Food", ⟨2024, 2, 29, 0, 0, 0⟩, ""⟩)]
      ("e1", ⟨10, "Food", ⟨2024, 2, 29, 0, 0, 0⟩, ""⟩)⟩

/-! ## C9 -/

/-- C9: the auth gate rejects a missing (or empty, hence falsy) Authorization
header with 401; any verification failure of the (optionally
`"Bearer "`-stripped) token with 401; a verified subject different from the
non-empty user-id path parameter with 403; and runs the wrapped handler on
the verified identity exactly when subject and path user-id agree.  The
final two conjuncts state the Bearer-prefix handling of
`verify_firebase_token`. -/
theorem C9_auth_gate {α : Type} (verify : String → Option Claims) (user_id : String)
    (handler : Claims → α) (huid : user_id ≠ "") :
    (require_auth verify none user_id handler = .err 401 "Authorization header missing")
    ∧ (require_auth verify (some "") user_id handler
        = .err 401 "Authorization header missing")
    ∧ (∀ h, h ≠ "" → verify_firebase_token verify h = none →
        require_auth verify (some h) user_id handler = .err 401 "Invalid or expired token")
    ∧ (∀ h tok, h ≠ "" → verify_firebase_token verify h = some tok → tok.uid ≠ user_id →
        require_auth verify (some h) user_id handler
          = .err 403 "Unauthorized access to user data")
    ∧ (∀ h tok, h ≠ "" → verify_firebase_token verify h = some tok → tok.uid = user_id →
        require_auth verify (some h) user_id handler = .ok (handler tok))
    ∧ (∀ t, hasBearerMarker t = true →
        verify_firebase_token verify t = verify (String.mk (t.toList.drop 7)))
    ∧ (∀ t, hasBearerMarker t = false → verify_firebase_token verify t = verify t) := by
  refine ⟨rfl, by simp [require_auth], ?_, ?_, ?_, ?_, ?_⟩
  · intro h hne hv
    simp [require_auth, hne, hv]
  · intro h tok hne hv hneq
    simp [require_auth, hne, hv, huid, Ne.symm hneq]
  · intro h tok hne hv heq
    simp [require_auth, hne, hv, heq.symm]
  · intro t ht
    rw [verify_firebase_token]
    simp [ht]
  · intro t ht
    rw [verify_firebase_token]
    simp [ht]

/-- Witness for C9 with a concrete verifier accepting exactly the token
"tok123" for subject "alice": a bearer-prefixed valid token reaches the
handler, a bad token is 401, and a valid token for the wrong path user is
403. -/
theorem C9_auth_gate_witness :
    (require_auth (fun t => if t = "tok123" then some ⟨"alice"⟩ else none)
        (some "Bearer tok123") "alice" (fun c => c.uid) = .ok "alice")
    ∧ (require_auth (fun t => if t = "tok123" then some ⟨"alice"⟩ else none)
        (some "Bearer nope") "alice" (fun c => c.uid) = .err 401 "Invalid or expired token")
    ∧ (require_auth (fun t => if t = "tok123" then some ⟨"alice"⟩ else none)
        (some "Bearer tok123") "bob" (fun c => c.uid)
        = .err 403 "Unauthorized access to user data") :=
  ⟨(C9_auth_gate (fun t => if t = "tok123" then some ⟨"alice"⟩ else none) "alice"
      (fun c => c.uid) (by decide)).2.2.2.2.1 "Bearer tok123" ⟨"alice"⟩
      (by decide) (by decide) rfl,
   (C9_auth_gate (fun t => if t = "tok123" then some ⟨"alice"⟩ else none) "alice"
      (fun c => c.uid) (by decide)).2.2.1 "Bearer nope" (by decide) (by decide),
   (C9_auth_gate (fun t => if t = "tok123" then some ⟨"alice"⟩ else none) "bob"
      (fun c => c.uid) (by decide)).2.2.2.1 "Bearer tok123" ⟨"alice"⟩
      (by decide) (by decide) (by decide)⟩

/-! ## C10 -/

/-- C10: month strings are validated inconsistently.  `set_budget` accepts
"2024-13" and "ab-cd" (any non-empty month splitting on '-' into exactly two
components passes, with no numeric or range check, as the general third
conjunct states), while `get_month_range` rejects both, and every month
string it rejects makes the expense listing, summary and report endpoints
return the 400 invalid-month error for any store contents; consequently a
budget stored under such a month can never appear in a summary or report:
every month query that is not rejected differs from it, and the
`month == query` budget filter then excludes that budget. -/
theorem C10_month_validation_inconsistency :
    (set_budget [] "b1" ⟨some (.num 100), some "2024-13", some "Food"⟩
      = (.ok ("b1", ⟨100, "2024-13", "Food"⟩), [("b1", ⟨100, "2024-13", "Food"⟩)]))
    ∧ (set_budget [] "b1" ⟨some (.num 100), some "ab-cd", some "Food"⟩
      = (.ok ("b1", ⟨100, "ab-cd", "Food"⟩), [("b1", ⟨100, "ab-cd", "Food"⟩)]))
    ∧ (∀ (bstore : List (String × BudgetRec)) (newId : String) (q : ℚ) (mraw craw : String),
        0 < q → mraw ≠ "" → craw ≠ "" → pyStrip mraw ≠ "" →
        (pySplitDash (pyStrip mraw)).length = 2 → pyStrip craw ≠ "" →
        bstore.any (fun p => p.2.month == pyStrip mraw && p.2.category == pyStrip craw)
          = false →
        set_budget bstore newId ⟨some (.num q), some mraw, some craw⟩
          = (.ok (newId, ⟨q, pyStrip mraw, pyStrip craw⟩),
             bstore ++ [(newId, ⟨q, pyStrip mraw, pyStrip craw⟩)]))
    ∧ (get_month_range "2024-13" = none ∧ get_month_range "ab-cd" = none)
    ∧ (∀ month, get_month_range month = none →
        ∀ (estore : List (String × ExpenseRec)) (bstore : List (String × BudgetRec)),
          get_summary month estore bstore = .err 400 "Invalid month format. Use YYYY-MM"
          ∧ get_report month estore bstore = .err 400 "Invalid month format. Use YYYY-MM"
          ∧ get_expenses month estore = .err 400 "Invalid month format. Use YYYY-MM")
    ∧ (∀ m q, get_month_range m = none → get_month_range q ≠ none →
        q ≠ m ∧ ∀ (bstore : List (String × BudgetRec)) (b : BudgetRec),
          b ∈ monthBudgets bstore q → b.month ≠ m) := by
  refine ⟨by decide, by decide, ?_, by decide, ?_, ?_⟩
  · intro bstore newId q mraw craw hq hm hc hms hml hcs hnodup
    have htr : AmountField.truthy (.num q) = true := by
      simp only [AmountField.truthy, decide_eq_true_iff]
      exact ne_of_gt hq
    simp [set_budget, htr, hm, hc, hms, hml, hcs, not_le.2 hq, hnodup]
  · intro month hnone estore bstore
    refine ⟨?_, ?_, ?_⟩
    · rw [get_summary, hnone]
    · rw [get_report, hnone]
    · rw [get_expenses, hnone]
  · intro m q hm hq
    have hqm : q ≠ m := by
      intro he
      exact hq (he ▸ hm)
    refine ⟨hqm, ?_⟩
    intro bstore b hb
    rcases List.mem_map.1 hb with ⟨p, hp, rfl⟩
    have := (List.mem_filter.1 hp).2
    rw [beq_iff_eq] at this
    rw [this]
    exact hqm

/-- Witness for C10: a budget stored under "2024-13" and the summary endpoint
refusing that month string, while query "2024-02" is accepted yet cannot
match the stored month. -/
theorem C10_month_validation_inconsistency_witness :
    (set_budget [] "b9" ⟨some (.num 5), some "2024-13", some "Rent"⟩
      = (.ok ("b9", ⟨5, "2024-13", "Rent"⟩), [("b9", ⟨5, "2024-13", "Rent"⟩)]))
    ∧ (get_summary "2024-13" [] [("b9", ⟨5, "2024-13", "Rent"⟩)]
        = .err 400 "Invalid month format. Use YYYY-MM")
    ∧ "2024-02" ≠ "2024-13" := by
  refine ⟨?_, ?_, ?_⟩
  · exact C10_month_validation_inconsistency.2.2.1 [] "b9" 5 "2024-13" "Rent"
      (by decide) (by decide) (by decide) (by decide) (by decide) (by decide) (by decide)
  · exact (C10_month_validation_inconsistency.2.2.2.2.1 "2024-13" (by decide)
      [] [("b9", ⟨5, "2024-13", "Rent"⟩)]).1
  · exact (C10_month_validation_inconsistency.2.2.2.2.2 "2024-13" "2024-02"
      (by decide) (by decide)).1
